import Mathlib

/-!
Verification of the k6-operator core against its specification.

The Go sources are embedded shallowly: pure functions become Lean
functions; calls into the cluster API, HTTP probes and resource
builders become oracle parameters whose outcomes are universally
quantified; k8s machine integers become `Int`; timestamps and
durations become `ℚ` seconds (Go's `time.Duration.Seconds()` and
`.Minutes()` are float-valued divisions by fixed constants).
-/

deriving instance DecidableEq for Except

namespace K6

/-! ## Segmentation Engine (`pkg/segmentation/segmentation.go`) -/

/-- Inner closure `getSegmentPart` of `NewCommandSegment`:
renders boundary `index` of `total` as `"0"`, `"1"` or `"index/total"`. -/
def getSegmentPart (index total : Int) : String :=
  if index = 0 then "0"
  else if index = total then "1"
  else toString index ++ "/" ++ toString total

/-- `NewCommandSegment(index, total)`: range-checks `index > total`, else
returns the `--execution-segment=<lower>:<upper>` command fragment. -/
def NewCommandSegment (index total : Int) : Except String String :=
  if index > total then
    Except.error "node index exceeds configured parallelism"
  else
    Except.ok ("--execution-segment=" ++
      getSegmentPart (index - 1) total ++ ":" ++ getSegmentPart index total)

/-- The lower bound rendered into segment `index` of `total`. -/
def segmentLower (index total : Int) : String := getSegmentPart (index - 1) total

/-- The upper bound rendered into segment `index` of `total`. -/
def segmentUpper (index total : Int) : String := getSegmentPart index total

/-- The rational value denoted by boundary `index` of `total`. -/
def boundaryVal (index total : Int) : ℚ := (index : ℚ) / (total : ℚ)

/-! ## Data model: conditions, TestRun, reconcile results, cloud events -/

/-- A condition's tri-state value. -/
inductive CondStatus where
  | isTrue
  | isFalse
  | unknown
deriving DecidableEq

/-- A status condition: kind, value, optional last-transition timestamp
(seconds; `none` when the condition has never transitioned). -/
structure Condition where
  condType : String
  status : CondStatus
  lastTransitionTime : Option ℚ
deriving DecidableEq

/-- The TestRun fields this core reads and writes. -/
structure TestRun where
  name : String
  nspace : String
  parallelism : Int
  useDirectPodIPs : Bool
  useLegacyStarter : Bool
  stage : String
  testRunID : String
  conditions : List Condition
deriving DecidableEq

def TestRunRunning : String := "TestRunRunning"

def CloudTestRun : String := "CloudTestRun"

def CloudTestRunCreated : String := "CloudTestRunCreated"

def CloudPLZTestRun : String := "CloudPLZTestRun"

/-- Modelled from the spec: condition lookup over the TestRun's ordered
condition set (the `v1alpha1` helpers live outside the embedded sources;
the data model keeps exactly one condition per kind). -/
def findCond (k6 : TestRun) (kind : String) : Option Condition :=
  k6.conditions.find? (fun c => c.condType = kind)

/-- Modelled from the spec: `v1alpha1.IsTrue` — the condition of `kind` is
present with value True. -/
def IsTrue (k6 : TestRun) (kind : String) : Bool :=
  match findCond k6 kind with
  | some c => c.status = CondStatus.isTrue
  | none => false

/-- Modelled from the spec: `v1alpha1.IsUnknown` — the condition of `kind` is
present with value Unknown. -/
def IsUnknown (k6 : TestRun) (kind : String) : Bool :=
  match findCond k6 kind with
  | some c => c.status = CondStatus.unknown
  | none => false

/-- Modelled from the spec: `v1alpha1.LastUpdate` — the last-transition time
of the condition of `kind`, `none` when absent or never transitioned
(Go returns a `(time, ok)` pair). -/
def LastUpdate (k6 : TestRun) (kind : String) : Option ℚ :=
  (findCond k6 kind).bind (fun c => c.lastTransitionTime)

/-- Modelled from the spec: `v1alpha1.UpdateCondition` — set the condition of
`kind`; a same-value write keeps the transition timestamp. -/
def UpdateCondition (k6 : TestRun) (kind : String) (status : CondStatus) (now : ℚ) :
    TestRun :=
  { k6 with conditions := k6.conditions.map (fun c =>
      if c.condType = kind then
        if c.status = status then c
        else { c with status := status, lastTransitionTime := some now }
      else c) }

/-- `ctrl.Result`: requeue flag and requeue delay in seconds (0 = none). -/
structure ReconcileResult where
  requeue : Bool
  requeueAfter : Int
deriving DecidableEq

/-- An event sent to the cloud reporter
(`cloud.ErrorEvent(kind).WithDetail(d).WithAbort()`). -/
structure CloudEvent where
  kind : String
  detail : String
  abort : Bool
deriving DecidableEq

def K6OperatorStartError : String := "K6OperatorStartError"

def SetupError : String := "SetupError"

/-! ## Shared partition artifact (`newSharedRunnedConfigmap`) -/

/-- `newLabels`: labels put on every derived resource. -/
def newLabels (name : String) : List (String × String) :=
  [("app", "k6"), ("k6_cr", name)]

/-- The ConfigMap fields this core sets. -/
structure ConfigMap where
  name : String
  nspace : String
  labels : List (String × String)
  data : List (String × String)
deriving DecidableEq

/-- The `"0,%s,1"` sequence string built inside `newSharedRunnedConfigmap`:
the joined inner boundaries `i/total` for `i = 1 .. total-1`, wrapped
between `0` and `1`. -/
def executionSegmentSequenceString (total : Int) : String :=
  "0," ++
    String.intercalate ","
      ((List.range (total - 1).toNat).map
        (fun k => toString ((k : Int) + 1) ++ "/" ++ toString total)) ++
    ",1"

/-- `newSharedRunnedConfigmap`: `none` when parallelism ≤ 1, else the one
ConfigMap named after the run, holding under key `config.json` the JSON
object produced by `json.Marshal` of the single-key map. -/
def newSharedRunnedConfigmap (k6 : TestRun) : Option ConfigMap :=
  let total := k6.parallelism
  if total ≤ 1 then none
  else
    let jsonData : String :=
      "\x7b\"executionSegmentSequence\":\"" ++
        executionSegmentSequenceString total ++ "\"\x7d"
    some ⟨k6.name, k6.nspace, newLabels k6.name, [("config.json", jsonData)]⟩

/-! ## Per-index creation (`launchTest`, `createJobSpecs`, `CreateJobs`) -/

/-- Outcomes of the collaborator calls made by `launchTest` for one index:
`some msg` is the error the call returned, `none` is success. -/
structure LaunchOracles where
  newRunnerJob : Option String
  setRefJob : Option String
  createJob : Option String
  newRunnerService : Option String
  setRefService : Option String
  createService : Option String
deriving DecidableEq

/-- `launchTest` for one index: build/own/create the job, then — unless
direct pod IPs are used — build/own/create the service. Every failing call
is logged and its error returned. The booleans report whether the job,
resp. the service, was created by the pass (nothing ever deletes them). -/
def launchTest (useDirectPodIPs : Bool) (o : LaunchOracles) :
    Option String × Bool × Bool :=
  match o.newRunnerJob with
  | some e => (some e, false, false)
  | none =>
    match o.setRefJob with
    | some e => (some e, false, false)
    | none =>
      match o.createJob with
      | some e => (some e, false, false)
      | none =>
        if useDirectPodIPs then (none, true, false)
        else
          match o.newRunnerService with
          | some e => (some e, true, false)
          | none =>
            match o.setRefService with
            | some e => (some e, true, false)
            | none =>
              match o.createService with
              | some e => (some e, true, false)
              | none => (none, true, true)

/-- Outcome of the `r.Get` probe for the index-1 job name. -/
inductive GetOutcome where
  | found
  | notFound
  | otherError (msg : String)
deriving DecidableEq

/-- Outcomes of the collaborator calls made by `createJobSpecs`. -/
structure CreateOracles where
  getJob1 : GetOutcome
  setRefConfigMap : Option String
  createConfigMap : Option String
  launches : Int → LaunchOracles

/-- The error produced in the conflict branch of `createJobSpecs`:
for a found job it is the pre-existing-resource message, for a failed
probe it is the probe's error. -/
def conflictMessage (name : String) : GetOutcome → String
  | GetOutcome.found =>
      "job with the name " ++ name ++
        "-1 exists; make sure you\x27ve deleted your previous run"
  | GetOutcome.notFound => ""
  | GetOutcome.otherError e => e

/-- The grace-window test of the conflict branch:
`IsUnknown(CloudTestRun) || !condUpdated || time.Since(t).Seconds() <= 30`. -/
def conflictGrace (k6 : TestRun) (now : ℚ) : Bool :=
  IsUnknown k6 CloudTestRun ||
    match LastUpdate k6 CloudTestRun with
    | none => true
    | some t => decide (now - t ≤ 30)

/-- The `for i := 1; i <= parallelism; i++` loop body of `createJobSpecs`:
first error aborts the loop. -/
def launchLoop (k6 : TestRun) (launches : Int → LaunchOracles) :
    List Int → Option String
  | [] => none
  | i :: rest =>
    match (launchTest k6.useDirectPodIPs (launches i)).1 with
    | some e => some e
    | none => launchLoop k6 launches rest

/-- `createJobSpecs`: probe for the index-1 job; on conflict apply the
30-second grace window (10s requeue with recheck) or fail; otherwise create
the shared ConfigMap when present and launch every index `1..parallelism`.
Returns `(result, recheck, error)`. -/
def createJobSpecs (k6 : TestRun) (now : ℚ) (o : CreateOracles) :
    ReconcileResult × Bool × Option String :=
  if o.getJob1 ≠ GetOutcome.notFound then
    if conflictGrace k6 now then (⟨false, 10⟩, true, none)
    else (⟨false, 0⟩, false, some (conflictMessage k6.name o.getJob1))
  else
    let indices := (List.range k6.parallelism.toNat).map (fun k => (k : Int) + 1)
    let rest : ReconcileResult × Bool × Option String :=
      match launchLoop k6 o.launches indices with
      | some e => (⟨false, 0⟩, false, some e)
      | none => (⟨false, 0⟩, false, none)
    match newSharedRunnedConfigmap k6 with
    | some _ =>
      match o.setRefConfigMap with
      | some e => (⟨false, 0⟩, false, some e)
      | none =>
        match o.createConfigMap with
        | some e => (⟨false, 0⟩, false, some e)
        | none => rest
    | none => rest

/-- Outcomes of the collaborator calls made by `CreateJobs`. -/
structure CreateJobsOracles where
  tokenLoad : Option String
  tokenReady : Bool
  spec : CreateOracles
  updateStatus : Except String Bool

/-- Result of one `CreateJobs` pass: reconcile result, returned error,
events sent to the cloud reporter, and the TestRun as left by the pass. -/
structure CreateJobsOutput where
  result : ReconcileResult
  error : Option String
  events : List CloudEvent
  k6final : TestRun
deriving DecidableEq

/-- The tail of `CreateJobs` below the token handling: run `createJobSpecs`;
on error report to the cloud for cloud-backed runs and return it; on recheck
return the requeue; else set stage to `created` and persist. -/
def createJobsTail (k6 : TestRun) (now : ℚ) (o : CreateJobsOracles) :
    CreateJobsOutput :=
  match createJobSpecs k6 now o.spec with
  | (res, recheck, err) =>
    match err with
    | some e =>
      let events :=
        if IsTrue k6 CloudTestRun then
          [⟨K6OperatorStartError, "Failed to create runner jobs: " ++ e, true⟩]
        else []
      ⟨res, some e, events, k6⟩
    | none =>
      if recheck then ⟨res, none, [], k6⟩
      else
        let k6' := { k6 with stage := "created" }
        match o.updateStatus with
        | Except.error e => ⟨⟨false, 0⟩, some e, [], k6'⟩
        | Except.ok true => ⟨⟨true, 0⟩, none, [], k6'⟩
        | Except.ok false => ⟨⟨false, 0⟩, none, [], k6'⟩

/-- `CreateJobs`: for cloud runs with a created cloud test, load the token
first (load error: log only, return cleanly; not ready: 5s requeue);
then run `createJobsTail`. -/
def CreateJobs (k6 : TestRun) (now : ℚ) (o : CreateJobsOracles) :
    CreateJobsOutput :=
  if IsTrue k6 CloudTestRun && IsTrue k6 CloudTestRunCreated then
    match o.tokenLoad with
    | some _ => ⟨⟨false, 0⟩, none, [], k6⟩
    | none =>
      if !o.tokenReady then ⟨⟨false, 5⟩, none, [], k6⟩
      else createJobsTail k6 now o
  else createJobsTail k6 now o

/-! ## Dispatch (`SendStartToHTTPWorker`, `StartK6FromOperators`) -/

/-- A `TestRequest` queued for the HTTP worker pool. -/
structure TestRequest where
  nspace : String
  payload : String
  testRunName : String
  method : String
  url : String
deriving DecidableEq

/-- The JSON that `json.Marshal` produces for the fixed start payload
(Go marshals map keys in sorted order). -/
def startPayloadJSON : String :=
  "\x7b\"data\":\x7b\"attributes\":\x7b\"paused\":false,\"stopped\":false\x7d," ++
    "\"id\":\"default\",\"type\":\"status\"\x7d\x7d"

/-- `json.Marshal(payload)` inside `SendStartToHTTPWorker`: the payload is a
fixed constant of strings and booleans, so marshaling always succeeds. -/
def marshalStartPayload : Except String String :=
  Except.ok startPayloadJSON

/-- The `select`-with-`default` send on the bounded `testRequests` channel:
append when below capacity, otherwise drop; the Bool reports delivery.
Total (never blocks) and never an error either way. -/
def enqueueNonBlocking (cap : Nat) (q : List TestRequest) (req : TestRequest) :
    List TestRequest × Bool :=
  if q.length < cap then (q ++ [req], true) else (q, false)

/-- `SendStartToHTTPWorker`: build the URL and request, marshal the fixed
payload, enqueue non-blockingly (a full channel only logs), return `nil`
unless marshaling failed. The queue state is threaded explicitly. -/
def SendStartToHTTPWorker (cap : Nat) (nspace name : String)
    (q : List TestRequest) (hostname : String) :
    List TestRequest × Option String :=
  let url := "http://" ++ hostname ++ ":6565/v1/status"
  match marshalStartPayload with
  | Except.error e => (q, some e)
  | Except.ok jsonData =>
    let req : TestRequest := ⟨nspace, jsonData, name, "PATCH", url⟩
    ((enqueueNonBlocking cap q req).1, none)

/-- The `for _, hostname := range *hostnames` loop of `StartK6FromOperators`,
generic in the per-target send: returns the final send state, the ordered
trace of targets called, and the wrapped error strings collected. -/
def startAgentsLoop {σ : Type} (send : σ → String → σ × Option String) :
    σ → List String → σ × List String × List String
  | s, [] => (s, [], [])
  | s, h :: rest =>
    let step := send s h
    let tail := startAgentsLoop send step.1 rest
    match step.2 with
    | some msg =>
      (tail.1, h :: tail.2.1,
        ("failed to start agent on " ++ h ++ ": " ++ msg) :: tail.2.2)
    | none => (tail.1, h :: tail.2.1, tail.2.2)

/-- `StartK6FromOperators`, generic in the per-target send: run the loop over
every hostname, then either `nil` or the one aggregate
`failed to start <k>/<n> agents: [..]` error (`%v` of a Go error slice). -/
def StartK6FromOperatorsWith {σ : Type} (send : σ → String → σ × Option String)
    (s : σ) (hostnames : List String) : σ × List String × Option String :=
  let out := startAgentsLoop send s hostnames
  (out.1, out.2.1,
    if out.2.2.length > 0 then
      some ("failed to start " ++ toString out.2.2.length ++ "/" ++
        toString hostnames.length ++ " agents: [" ++
        String.intercalate " " out.2.2 ++ "]")
    else none)

/-- `StartK6FromOperators` as compiled: the per-target send is
`SendStartToHTTPWorker` over the shared bounded queue. -/
def StartK6FromOperators (cap : Nat) (nspace name : String)
    (q : List TestRequest) (hostnames : List String) :
    List TestRequest × List String × Option String :=
  StartK6FromOperatorsWith
    (fun q' h => SendStartToHTTPWorker cap nspace name q' h) q hostnames

/-! ## Readiness gate and start (`Start`) -/

/-- Modelled from the spec: the log message used when waiting has taken too
long; its format constant lives outside the embedded sources and only the
emitted event's kind and abort flag matter to the claims. -/
def errMessageTooLong (waitingFor checkOn : String) : String :=
  "waiting for " ++ waitingFor ++ " has taken too long; check " ++ checkOn

/-- The pod count of the readiness gate: pods whose phase is `Running`. -/
def countRunning (pl : List String) : Nat :=
  (pl.filter (fun phase => phase = "Running")).length

/-- Outcomes of the collaborator calls made by `Start`. -/
structure StartOracles where
  listPods : Option (List String)
  hostnames : Except String (List String)
  setup : Option (String × Bool)
  legacySetRef : Option String
  legacyCreate : Option String
  updateStatus : Except String Bool

/-- Result of one `Start` pass: reconcile result, returned error, events
sent to the cloud reporter, the TestRun as left by the pass, and the
dispatch queue as left by the pass. -/
structure StartOutput where
  result : ReconcileResult
  error : Option String
  events : List CloudEvent
  k6final : TestRun
  queue : List TestRequest
deriving DecidableEq

/-- The tail of `Start` once the runners have been started: set stage to
`started`, flip `TestRunRunning` to True, persist status. -/
def startFinish (k6 : TestRun) (now : ℚ) (q : List TestRequest)
    (o : StartOracles) : StartOutput :=
  let k6' := UpdateCondition { k6 with stage := "started" }
    TestRunRunning CondStatus.isTrue now
  match o.updateStatus with
  | Except.error e => ⟨⟨false, 0⟩, some e, [], k6', q⟩
  | Except.ok true => ⟨⟨true, 0⟩, none, [], k6', q⟩
  | Except.ok false => ⟨⟨false, 0⟩, none, [], k6', q⟩

/-- `Start`: list pods (a list error only logs and requeues); gate on the
count of Running pods equalling parallelism, with the 5-minute cloud abort
report while waiting; then resolve hostnames, run the CloudPLZ setup, start
the runners through the worker queue (or the legacy starter job, whose
owner-reference error only logs), and finish. -/
def Start (k6 : TestRun) (now : ℚ) (cap : Nat) (q : List TestRequest)
    (o : StartOracles) : StartOutput :=
  let res : ReconcileResult := ⟨false, 1⟩
  match o.listPods with
  | none => ⟨res, none, [], k6, q⟩
  | some pl =>
    if (countRunning pl : Int) ≠ k6.parallelism then
      match LastUpdate k6 TestRunRunning with
      | none => ⟨res, some "cannot find condition TestRunRunning", [], k6, q⟩
      | some t =>
        let events :=
          if 5 < (now - t) / 60 then
            if IsTrue k6 CloudTestRun then
              [⟨K6OperatorStartError,
                errMessageTooLong "runner pods" "runner jobs and pods", true⟩]
            else []
          else []
        ⟨res, none, events, k6, q⟩
    else
      match o.hostnames with
      | Except.error e => ⟨⟨false, 0⟩, some e, [], k6, q⟩
      | Except.ok hostnames =>
        match (if IsTrue k6 CloudPLZTestRun then o.setup else none) with
        | some (e, retry) =>
          if retry then ⟨⟨false, 0⟩, some e, [], k6, q⟩
          else
            ⟨⟨false, 0⟩, none,
              [⟨SetupError, "setup function failed: " ++ e, true⟩], k6, q⟩
        | none =>
          if !k6.useLegacyStarter then
            let out := StartK6FromOperators cap k6.nspace k6.name q hostnames
            match out.2.2 with
            | some _ => ⟨res, none, [], k6, out.1⟩
            | none => startFinish k6 now out.1 o
          else
            match o.legacyCreate with
            | some _ => ⟨res, none, [], k6, q⟩
            | none => startFinish k6 now q o

/-! ## Theorems -/

theorem boundaryVal_strictMono (N j k : Int) (hN : 1 ≤ N) (hjk : j < k) :
    boundaryVal j N < boundaryVal k N := by
  have hNZ : (0 : Int) < N := by omega
  have hN0 : (0 : ℚ) < (N : ℚ) := by exact_mod_cast hNZ
  unfold boundaryVal
  rw [div_lt_div_iff₀ hN0 hN0]
  have : (j : ℚ) < (k : ℚ) := by exact_mod_cast hjk
  exact mul_lt_mul_of_pos_right this hN0

theorem segment_cover (N : Int) (hN : 1 ≤ N) :
    (⋃ j ∈ Set.Icc (1 : Int) N,
      Set.Icc (boundaryVal (j - 1) N) (boundaryVal j N)) = Set.Icc (0 : ℚ) 1 := by
  have hNZ : (0 : Int) < N := by omega
  have hN0 : (0 : ℚ) < (N : ℚ) := by exact_mod_cast hNZ
  ext x
  simp only [Set.mem_iUnion, Set.mem_Icc, exists_prop]
  constructor
  · rintro ⟨j, ⟨hj1, hjN⟩, hlo, hhi⟩
    unfold boundaryVal at hlo hhi
    have h0 : (0 : ℚ) ≤ ((j - 1 : Int) : ℚ) / (N : ℚ) := by
      apply div_nonneg _ hN0.le
      have : (0 : Int) ≤ j - 1 := by omega
      exact_mod_cast this
    have h1 : ((j : Int) : ℚ) / (N : ℚ) ≤ 1 := by
      rw [div_le_one hN0]
      exact_mod_cast hjN
    exact ⟨le_trans h0 hlo, le_trans hhi h1⟩
  · rintro ⟨hx0, hx1⟩
    refine ⟨max 1 ⌈x * (N : ℚ)⌉, ⟨le_max_left _ _, ?_⟩, ?_, ?_⟩
    · refine max_le hN (Int.ceil_le.mpr ?_)
      calc x * (N : ℚ) ≤ 1 * (N : ℚ) := mul_le_mul_of_nonneg_right hx1 hN0.le
        _ = ((N : Int) : ℚ) := one_mul _
    · unfold boundaryVal
      rw [div_le_iff₀ hN0]
      rcases le_or_lt ⌈x * (N : ℚ)⌉ 1 with hm1 | hm1
      · have hmx : max 1 ⌈x * (N : ℚ)⌉ = 1 := by omega
        rw [hmx]
        have := mul_nonneg hx0 hN0.le
        push_cast
        linarith
      · have hmx : max 1 ⌈x * (N : ℚ)⌉ = ⌈x * (N : ℚ)⌉ := by omega
        rw [hmx]
        have hceil : (⌈x * (N : ℚ)⌉ : ℚ) < x * (N : ℚ) + 1 :=
          Int.ceil_lt_add_one (x * (N : ℚ))
        push_cast
        linarith
    · unfold boundaryVal
      rw [le_div_iff₀ hN0]
      have h1 : x * (N : ℚ) ≤ (⌈x * (N : ℚ)⌉ : ℚ) := Int.le_ceil _
      have h2 : ((⌈x * (N : ℚ)⌉ : Int) : ℚ) ≤ ((max 1 ⌈x * (N : ℚ)⌉ : Int) : ℚ) := by
        exact_mod_cast le_max_right 1 ⌈x * (N : ℚ)⌉
      linarith

/-- C1: for every `N ≥ 1` and `1 ≤ i ≤ N`, `NewCommandSegment i N` succeeds
with the flag built from `segmentLower`/`segmentUpper`; the lower bound of
segment `i` is literally the upper bound of segment `i-1` (with boundary 0
rendered `"0"`); and the boundary values are strictly increasing from 0 to
1 so that the segments `1..N` cover `[0,1]` with no gap or overlap —
determinism holds because the function is pure. -/
theorem segment_partition (i N : Int) (hN : 1 ≤ N) (_hi : 1 ≤ i) (hiN : i ≤ N) :
    NewCommandSegment i N =
      Except.ok ("--execution-segment=" ++ segmentLower i N ++ ":" ++
        segmentUpper i N) ∧
    segmentLower i N = segmentUpper (i - 1) N ∧
    segmentUpper 0 N = "0" ∧
    boundaryVal 0 N = 0 ∧
    boundaryVal N N = 1 ∧
    (∀ j k : Int, j < k → boundaryVal j N < boundaryVal k N) ∧
    (⋃ j ∈ Set.Icc (1 : Int) N,
      Set.Icc (boundaryVal (j - 1) N) (boundaryVal j N)) = Set.Icc (0 : ℚ) 1 := by
  have hNZ : (N : ℚ) ≠ 0 := by
    have : (0 : Int) < N := by omega
    exact_mod_cast this.ne'
  refine ⟨?_, rfl, ?_, ?_, ?_, fun j k hjk => boundaryVal_strictMono N j k hN hjk,
    segment_cover N hN⟩
  · unfold NewCommandSegment segmentLower segmentUpper
    rw [if_neg (not_lt.mpr hiN)]
  · unfold segmentUpper getSegmentPart
    simp
  · unfold boundaryVal
    simp
  · unfold boundaryVal
    exact div_self hNZ

/-- C1 witness: the partition facts instantiated at `i = 2`, `N = 3`. -/
theorem segment_partition_witness :
    (1 : Int) ≤ 2 ∧ (2 : Int) ≤ 3 ∧
    NewCommandSegment 2 3 =
      Except.ok ("--execution-segment=" ++ segmentLower 2 3 ++ ":" ++
        segmentUpper 2 3) ∧
    segmentLower 2 3 = segmentUpper (2 - 1) 3 :=
  ⟨by decide, by decide,
    (segment_partition 2 3 (by decide) (by decide) (by decide)).1,
    (segment_partition 2 3 (by decide) (by decide) (by decide)).2.1⟩

/-- C2 counterexample: the claim states `segment(2,4) = "1/4:1/2"`, but the
code returns the full flag string and never reduces the fraction `2/4`. -/
theorem newCommandSegment_claim_false :
    ¬ (NewCommandSegment 2 4 = Except.ok "1/4:1/2") := by decide

/-- C2 (amended): for `N ≥ 1`, `NewCommandSegment i N` fails with the range
error when `i > N`, and for `1 ≤ i ≤ N` succeeds with
`"--execution-segment=<lower>:<upper>"` where the bounds follow
`boundary(0)="0"`, `boundary(N)="1"`, `boundary(k)="k/N"`; in particular
`segment(2,4) = "--execution-segment=1/4:2/4"`,
`segment(1,1) = "--execution-segment=0:1"`, and `segment(6,5)` fails. -/
theorem newCommandSegment_spec (i N : Int) (hN : 1 ≤ N) :
    (N < i → NewCommandSegment i N =
      Except.error "node index exceeds configured parallelism") ∧
    (1 ≤ i → i ≤ N →
      NewCommandSegment i N =
        Except.ok ("--execution-segment=" ++ getSegmentPart (i - 1) N ++ ":" ++
          getSegmentPart i N)) ∧
    getSegmentPart 0 N = "0" ∧
    getSegmentPart N N = "1" ∧
    (∀ k : Int, 0 < k → k < N →
      getSegmentPart k N = toString k ++ "/" ++ toString N) ∧
    NewCommandSegment 2 4 = Except.ok "--execution-segment=1/4:2/4" ∧
    NewCommandSegment 1 1 = Except.ok "--execution-segment=0:1" ∧
    NewCommandSegment 6 5 =
      Except.error "node index exceeds configured parallelism" := by
  refine ⟨?_, ?_, ?_, ?_, ?_, by decide, by decide, by decide⟩
  · intro h
    unfold NewCommandSegment
    rw [if_pos h]
  · intro _ h2
    unfold NewCommandSegment
    rw [if_neg (not_lt.mpr h2)]
  · unfold getSegmentPart
    simp
  · unfold getSegmentPart
    rw [if_neg (by omega), if_pos rfl]
  · intro k hk0 hkN
    unfold getSegmentPart
    rw [if_neg (by omega), if_neg (by omega)]

/-- C2 witness: range failure at `(5,4)` and success shape at `(3,4)`. -/
theorem newCommandSegment_spec_witness :
    (1 : Int) ≤ 4 ∧ (4 : Int) < 5 ∧
    NewCommandSegment 5 4 =
      Except.error "node index exceeds configured parallelism" ∧
    NewCommandSegment 3 4 =
      Except.ok ("--execution-segment=" ++ getSegmentPart (3 - 1) 4 ++ ":" ++
        getSegmentPart 3 4) :=
  ⟨by decide, by decide,
    (newCommandSegment_spec 5 4 (by decide)).1 (by decide),
    (newCommandSegment_spec 3 4 (by decide)).2.1 (by decide) (by decide)⟩

/-- C3: no shared partition artifact for parallelism ≤ 1; for parallelism
`N > 1` exactly one ConfigMap whose single key `config.json` holds the JSON
`\x7b"executionSegmentSequence": "0,1/N,...,(N-1)/N,1"\x7d`; for `N = 3` the
sequence string is `"0,1/3,2/3,1"`. -/
theorem sharedConfigmap_spec (k6 : TestRun) :
    (k6.parallelism ≤ 1 → newSharedRunnedConfigmap k6 = none) ∧
    (1 < k6.parallelism → ∃ cm : ConfigMap,
      newSharedRunnedConfigmap k6 = some cm ∧
      cm.data = [("config.json",
        "\x7b\"executionSegmentSequence\":\"" ++
          executionSegmentSequenceString k6.parallelism ++ "\"\x7d")] ∧
      cm.data.length = 1) ∧
    (k6.parallelism = 3 →
      executionSegmentSequenceString k6.parallelism = "0,1/3,2/3,1") := by
  refine ⟨?_, ?_, ?_⟩
  · intro h
    simp only [newSharedRunnedConfigmap]
    rw [if_pos h]
  · intro h
    simp only [newSharedRunnedConfigmap]
    rw [if_neg (by omega : ¬ k6.parallelism ≤ 1)]
    exact ⟨_, rfl, rfl, rfl⟩
  · intro h
    rw [h]
    decide

/-- C3 witness: a run with parallelism 3 yields the one ConfigMap with the
`"0,1/3,2/3,1"` sequence; a run with parallelism 1 yields nothing. -/
theorem sharedConfigmap_spec_witness :
    (1 : Int) < 3 ∧
    (∃ cm : ConfigMap,
      newSharedRunnedConfigmap ⟨"k6-test", "default", 3, false, false, "", "", []⟩ =
        some cm ∧
      cm.data = [("config.json",
        "\x7b\"executionSegmentSequence\":\"" ++
          executionSegmentSequenceString 3 ++ "\"\x7d")] ∧
      cm.data.length = 1) ∧
    newSharedRunnedConfigmap ⟨"k6-test", "default", 1, false, false, "", "", []⟩ =
      none ∧
    executionSegmentSequenceString 3 = "0,1/3,2/3,1" :=
  ⟨by decide,
    (sharedConfigmap_spec ⟨"k6-test", "default", 3, false, false, "", "", []⟩).2.1
      (by decide),
    (sharedConfigmap_spec ⟨"k6-test", "default", 1, false, false, "", "", []⟩).1
      (by decide),
    (sharedConfigmap_spec ⟨"k6-test", "default", 3, false, false, "", "", []⟩).2.2
      (by decide)⟩

/-- C7: enqueuing a start request while the dispatch queue is at capacity
returns with no error and leaves the queue unchanged — the request is
dropped, never added, hence never delivered or retried; the function is
total, so the caller is never blocked. -/
theorem sendStart_queueFull (cap : Nat) (nspace name : String)
    (q : List TestRequest) (hostname : String) (hfull : cap ≤ q.length) :
    SendStartToHTTPWorker cap nspace name q hostname = (q, none) := by
  unfold SendStartToHTTPWorker marshalStartPayload enqueueNonBlocking
  simp [Nat.not_lt.mpr hfull]

/-- C7 witness: dropping on a queue of capacity 1 already holding a request. -/
theorem sendStart_queueFull_witness :
    (1 : Nat) ≤ [(⟨"default", "p", "t", "PATCH", "u"⟩ : TestRequest)].length ∧
    SendStartToHTTPWorker 1 "default" "t"
        [(⟨"default", "p", "t", "PATCH", "u"⟩ : TestRequest)] "host" =
      ([(⟨"default", "p", "t", "PATCH", "u"⟩ : TestRequest)], none) :=
  ⟨by decide,
    sendStart_queueFull 1 "default" "t"
      [(⟨"default", "p", "t", "PATCH", "u"⟩ : TestRequest)] "host" (by decide)⟩

/-- C8 counterexample: with the job created successfully and the service
creation failing, the `CreateJobs` pass returns the error — it does not end
"without forcing an error" as the claim states. -/
theorem serviceFailure_claim_false :
    (CreateJobs ⟨"k6-test", "default", 1, false, false, "", "", []⟩ 0
        ⟨none, true,
          ⟨GetOutcome.notFound, none, none,
            fun _ => ⟨none, none, none, none, none, some "service create failed"⟩⟩,
          Except.ok false⟩).error =
      some "service create failed" := by decide

/-- C8 (amended): when the job creation for an index succeeded and the
subsequent service creation fails, the failure is logged and the error is
returned (aborting the pass as a fatal error); the already-created job is
not retracted (the pass reports it created and performs no deletion). -/
theorem serviceFailure_surfaced (o : LaunchOracles) (e : String)
    (h1 : o.newRunnerJob = none) (h2 : o.setRefJob = none)
    (h3 : o.createJob = none) (h4 : o.newRunnerService = none)
    (h5 : o.setRefService = none) (h6 : o.createService = some e) :
    launchTest false o = (some e, true, false) := by
  simp [launchTest, h1, h2, h3, h4, h5, h6]

/-- C8 witness: the surfaced error and surviving job at a concrete oracle. -/
theorem serviceFailure_surfaced_witness :
    (⟨none, none, none, none, none, some "boom"⟩ : LaunchOracles).createService =
      some "boom" ∧
    launchTest false (⟨none, none, none, none, none, some "boom"⟩ : LaunchOracles) =
      (some "boom", true, false) :=
  ⟨by decide,
    serviceFailure_surfaced (⟨none, none, none, none, none, some "boom"⟩ :
      LaunchOracles) "boom" rfl rfl rfl rfl rfl rfl⟩

/-- C5: under a creation conflict (index-1 job found, or any probe error
other than not-found), a reconcile with the CloudTestRun condition Unknown,
never transitioned, or transitioned less than 30 seconds ago yields the
10-second requeue and no error; with the condition known and transitioned
more than 30 seconds ago it yields the fatal error. -/
theorem conflict_retry_policy (k6 : TestRun) (now : ℚ) (o : CreateOracles)
    (hconf : o.getJob1 ≠ GetOutcome.notFound) :
    ((IsUnknown k6 CloudTestRun = true ∨ LastUpdate k6 CloudTestRun = none ∨
        (∃ t : ℚ, LastUpdate k6 CloudTestRun = some t ∧ now - t < 30)) →
      createJobSpecs k6 now o = (⟨false, 10⟩, true, none)) ∧
    (∀ t : ℚ, IsUnknown k6 CloudTestRun = false →
      LastUpdate k6 CloudTestRun = some t → 30 < now - t →
      createJobSpecs k6 now o =
        (⟨false, 0⟩, false, some (conflictMessage k6.name o.getJob1))) := by
  constructor
  · intro h
    have hg : conflictGrace k6 now = true := by
      unfold conflictGrace
      rcases h with h | h | ⟨t, ht, hlt⟩
      · simp [h]
      · simp [h]
      · have hle : now - t ≤ 30 := le_of_lt hlt
        simp [ht, hle]
    unfold createJobSpecs
    rw [if_pos hconf, if_pos hg]
  · intro t hu ht hgt
    have hg : conflictGrace k6 now = false := by
      unfold conflictGrace
      rw [hu, ht]
      simp only [Bool.false_or]
      exact decide_eq_false (by linarith)
    unfold createJobSpecs
    rw [if_pos hconf, if_neg (by simp [hg])]

/-- C5 witness: a found index-1 job 10 seconds after the CloudTestRun
transition requeues; the same conflict 100 seconds after it fails. -/
theorem conflict_retry_policy_witness :
    createJobSpecs
        ⟨"k6-test", "default", 2, false, false, "", "",
          [⟨"CloudTestRun", CondStatus.isTrue, some 0⟩]⟩ 10
        ⟨GetOutcome.found, none, none,
          fun _ => ⟨none, none, none, none, none, none⟩⟩ =
      (⟨false, 10⟩, true, none) ∧
    createJobSpecs
        ⟨"k6-test", "default", 2, false, false, "", "",
          [⟨"CloudTestRun", CondStatus.isTrue, some 0⟩]⟩ 100
        ⟨GetOutcome.found, none, none,
          fun _ => ⟨none, none, none, none, none, none⟩⟩ =
      (⟨false, 0⟩, false,
        some (conflictMessage "k6-test" GetOutcome.found)) :=
  ⟨(conflict_retry_policy
      ⟨"k6-test", "default", 2, false, false, "", "",
        [⟨"CloudTestRun", CondStatus.isTrue, some 0⟩]⟩ 10
      ⟨GetOutcome.found, none, none,
        fun _ => ⟨none, none, none, none, none, none⟩⟩ (by decide)).1
      (Or.inr (Or.inr ⟨0, by decide, by norm_num⟩)),
    (conflict_retry_policy
      ⟨"k6-test", "default", 2, false, false, "", "",
        [⟨"CloudTestRun", CondStatus.isTrue, some 0⟩]⟩ 100
      ⟨GetOutcome.found, none, none,
        fun _ => ⟨none, none, none, none, none, none⟩⟩ (by decide)).2
      0 (by decide) (by decide) (by norm_num)⟩

/-- C4: a `Start` pass that lists fewer Running pods than the configured
parallelism (and finds the `TestRunRunning` condition, which the data model
guarantees) returns no error, changes neither the stage nor any condition,
and requests a requeue after one second. -/
theorem start_readiness_gate (k6 : TestRun) (now : ℚ) (cap : Nat)
    (q : List TestRequest) (o : StartOracles) (pl : List String) (t : ℚ)
    (hlist : o.listPods = some pl)
    (hcount : (countRunning pl : Int) < k6.parallelism)
    (hcond : LastUpdate k6 TestRunRunning = some t) :
    (Start k6 now cap q o).error = none ∧
    (Start k6 now cap q o).result = ⟨false, 1⟩ ∧
    (Start k6 now cap q o).k6final = k6 := by
  have hne : (countRunning pl : Int) ≠ k6.parallelism := by omega
  refine ⟨?_, ?_, ?_⟩ <;> simp [Start, hlist, hne, hcond]

set_option maxRecDepth 4000 in
/-- C4 witness: 199 Running pods out of parallelism 200. -/
theorem start_readiness_gate_witness :
    ((countRunning (List.replicate 199 "Running") : Int) < 200) ∧
    (Start ⟨"k6-test", "default", 200, false, false, "created", "",
        [⟨"TestRunRunning", CondStatus.isFalse, some 0⟩]⟩ 10 8 []
      ⟨some (List.replicate 199 "Running"), Except.ok [], none, none, none,
        Except.ok false⟩).error = none ∧
    (Start ⟨"k6-test", "default", 200, false, false, "created", "",
        [⟨"TestRunRunning", CondStatus.isFalse, some 0⟩]⟩ 10 8 []
      ⟨some (List.replicate 199 "Running"), Except.ok [], none, none, none,
        Except.ok false⟩).result = ⟨false, 1⟩ :=
  ⟨by decide,
    (start_readiness_gate ⟨"k6-test", "default", 200, false, false, "created", "",
        [⟨"TestRunRunning", CondStatus.isFalse, some 0⟩]⟩ 10 8 []
      ⟨some (List.replicate 199 "Running"), Except.ok [], none, none, none,
        Except.ok false⟩ (List.replicate 199 "Running") 0 rfl (by decide) (by decide)).1,
    (start_readiness_gate ⟨"k6-test", "default", 200, false, false, "created", "",
        [⟨"TestRunRunning", CondStatus.isFalse, some 0⟩]⟩ 10 8 []
      ⟨some (List.replicate 199 "Running"), Except.ok [], none, none, none,
        Except.ok false⟩ (List.replicate 199 "Running") 0 rfl (by decide) (by decide)).2.1⟩

/-- C9: a `Start` pass short of readiness whose `TestRunRunning` condition
last transitioned more than 5 minutes ago emits the abort event to the
cloud reporter when the run is cloud-backed, and in all cases still
returns the one-second requeue and no error. -/
theorem start_stuck_abort (k6 : TestRun) (now : ℚ) (cap : Nat)
    (q : List TestRequest) (o : StartOracles) (pl : List String) (t : ℚ)
    (hlist : o.listPods = some pl)
    (hcount : (countRunning pl : Int) < k6.parallelism)
    (hcond : LastUpdate k6 TestRunRunning = some t)
    (hlong : 5 < (now - t) / 60) :
    (IsTrue k6 CloudTestRun = true →
      (Start k6 now cap q o).events =
        [⟨K6OperatorStartError,
          errMessageTooLong "runner pods" "runner jobs and pods", true⟩]) ∧
    (Start k6 now cap q o).result = ⟨false, 1⟩ ∧
    (Start k6 now cap q o).error = none := by
  have hne : (countRunning pl : Int) ≠ k6.parallelism := by omega
  refine ⟨?_, ?_, ?_⟩
  · intro hcloud
    simp [Start, hlist, hne, hcond, hlong, hcloud]
  · simp [Start, hlist, hne, hcond]
  · simp [Start, hlist, hne, hcond]

/-- C9 witness: a cloud-backed run stuck 400 seconds past the transition. -/
theorem start_stuck_abort_witness :
    ((countRunning ["Pending"] : Int) < 2) ∧ ((5 : ℚ) < (400 - 0) / 60) ∧
    (Start ⟨"k6-test", "default", 2, false, false, "created", "",
        [⟨"TestRunRunning", CondStatus.isFalse, some 0⟩,
         ⟨"CloudTestRun", CondStatus.isTrue, some 0⟩]⟩ 400 8 []
      ⟨some ["Pending"], Except.ok [], none, none, none, Except.ok false⟩).events =
      [⟨K6OperatorStartError,
        errMessageTooLong "runner pods" "runner jobs and pods", true⟩] ∧
    (Start ⟨"k6-test", "default", 2, false, false, "created", "",
        [⟨"TestRunRunning", CondStatus.isFalse, some 0⟩,
         ⟨"CloudTestRun", CondStatus.isTrue, some 0⟩]⟩ 400 8 []
      ⟨some ["Pending"], Except.ok [], none, none, none, Except.ok false⟩).error =
      none :=
  ⟨by decide, by norm_num,
    (start_stuck_abort ⟨"k6-test", "default", 2, false, false, "created", "",
        [⟨"TestRunRunning", CondStatus.isFalse, some 0⟩,
         ⟨"CloudTestRun", CondStatus.isTrue, some 0⟩]⟩ 400 8 []
      ⟨some ["Pending"], Except.ok [], none, none, none, Except.ok false⟩
      ["Pending"] 0 rfl (by decide) (by decide) (by norm_num)).1 (by decide),
    (start_stuck_abort ⟨"k6-test", "default", 2, false, false, "created", "",
        [⟨"TestRunRunning", CondStatus.isFalse, some 0⟩,
         ⟨"CloudTestRun", CondStatus.isTrue, some 0⟩]⟩ 400 8 []
      ⟨some ["Pending"], Except.ok [], none, none, none, Except.ok false⟩
      ["Pending"] 0 rfl (by decide) (by decide) (by norm_num)).2.2⟩

theorem startAgentsLoop_pure (f : String → Option String) (hostnames : List String) :
    startAgentsLoop (fun (u : Unit) h => (u, f h)) () hostnames =
      ((), hostnames,
        (hostnames.filter (fun h => (f h).isSome)).map
          (fun h => "failed to start agent on " ++ h ++ ": " ++ (f h).getD "")) := by
  induction hostnames with
  | nil => rfl
  | cons h rest ih =>
    cases hfh : f h with
    | some msg => simp [startAgentsLoop, hfh, ih, List.filter_cons]
    | none => simp [startAgentsLoop, hfh, ih, List.filter_cons]

/-- C6: the synchronous start path calls every target exactly once, in
order and without short-circuiting; it returns no error iff no target
fails, and otherwise one aggregate error naming the failure count over the
total and wrapping every failing target. Stated for an arbitrary per-target
outcome `f` substituted for the send. -/
theorem aggregate_start (f : String → Option String) (hostnames : List String) :
    (StartK6FromOperatorsWith (fun (u : Unit) h => (u, f h)) () hostnames).2.1 =
      hostnames ∧
    ((StartK6FromOperatorsWith (fun (u : Unit) h => (u, f h)) () hostnames).2.2 =
        none ↔ hostnames.filter (fun h => (f h).isSome) = []) ∧
    (hostnames.filter (fun h => (f h).isSome) ≠ [] →
      (StartK6FromOperatorsWith (fun (u : Unit) h => (u, f h)) () hostnames).2.2 =
        some ("failed to start " ++
          toString (hostnames.filter (fun h => (f h).isSome)).length ++ "/" ++
          toString hostnames.length ++ " agents: [" ++
          String.intercalate " "
            ((hostnames.filter (fun h => (f h).isSome)).map
              (fun h => "failed to start agent on " ++ h ++ ": " ++
                (f h).getD "")) ++ "]")) := by
  have hl := startAgentsLoop_pure f hostnames
  unfold StartK6FromOperatorsWith
  rw [hl]
  rcases eq_or_ne (hostnames.filter (fun h => (f h).isSome)) [] with hf | hf
  · simp [hf]
  · have hlen : 0 < (hostnames.filter (fun h => (f h).isSome)).length :=
      List.length_pos.mpr hf
    simp [hf, hlen, List.length_map]

/-- C6 witness: 5 targets of which exactly `t2` and `t4` fail produce the
one `2/5` aggregate error naming both, with all 5 targets called once. -/
theorem aggregate_start_witness :
    (StartK6FromOperatorsWith
        (fun (u : Unit) h =>
          (u, if h = "t2" || h = "t4" then some "boom" else none)) ()
        ["t1", "t2", "t3", "t4", "t5"]).2.1 = ["t1", "t2", "t3", "t4", "t5"] ∧
    (StartK6FromOperatorsWith
        (fun (u : Unit) h =>
          (u, if h = "t2" || h = "t4" then some "boom" else none)) ()
        ["t1", "t2", "t3", "t4", "t5"]).2.2 =
      some ("failed to start 2/5 agents: [failed to start agent on t2: boom " ++
        "failed to start agent on t4: boom]") := by
  have h := aggregate_start
    (fun h => if h = "t2" || h = "t4" then some "boom" else none)
    ["t1", "t2", "t3", "t4", "t5"]
  refine ⟨h.1, ?_⟩
  rw [h.2.2 (by decide)]
  decide

theorem startAgentsLoop_no_error {σ : Type} (send : σ → String → σ × Option String)
    (hsend : ∀ s h, (send s h).2 = none) (s : σ) (hostnames : List String) :
    (startAgentsLoop send s hostnames).2.1 = hostnames ∧
    (startAgentsLoop send s hostnames).2.2 = [] := by
  induction hostnames generalizing s with
  | nil => exact ⟨rfl, rfl⟩
  | cons h rest ih =>
    have hs := hsend s h
    have iht := ih (send s h).1
    simp [startAgentsLoop, hs, iht.1, iht.2]

/-- C10: `SendStartToHTTPWorker` never returns an error (the fixed payload
always marshals and a full queue only drops), so `StartK6FromOperators`
collects no per-target error and returns `nil` for every hostname list:
the aggregate failed-agents error path is unreachable. -/
theorem start_error_path_unreachable (cap : Nat) (nspace name : String)
    (q : List TestRequest) (hostnames : List String) (hostname : String) :
    (SendStartToHTTPWorker cap nspace name q hostname).2 = none ∧
    (StartK6FromOperators cap nspace name q hostnames).2.2 = none ∧
    (StartK6FromOperators cap nspace name q hostnames).2.1 = hostnames := by
  have hsend : ∀ (q' : List TestRequest) (h : String),
      (SendStartToHTTPWorker cap nspace name q' h).2 = none := by
    intro q' h
    simp [SendStartToHTTPWorker, marshalStartPayload]
  have hloop := startAgentsLoop_no_error
    (fun q' h => SendStartToHTTPWorker cap nspace name q' h) hsend q hostnames
  refine ⟨hsend q hostname, ?_, ?_⟩
  · unfold StartK6FromOperators StartK6FromOperatorsWith
    simp [hloop.2]
  · unfold StartK6FromOperators StartK6FromOperatorsWith
    simp [hloop.1]

end K6
